import Mathlib

/-
Verification of the Grafana dashboard-reconciliation tool
(observability/grafana/grafana.py) against its design document.

The Python code is shallowly embedded: JSON documents become the inductive
type `JVal`; Python dictionary/attribute operations that can raise become
`Except String`-valued functions; subprocess side effects become explicit
`Eff` events collected in traces.  String contents of shell commands are
abbreviated to a stable prefix since the resource-group / instance names they
interpolate are environment data, not logic.
-/

set_option autoImplicit false

namespace Grafana

/-- A JSON value as produced by Python's `json.load` (floats are not used by
any dashboard field the tool inspects, so numbers are integers here). -/
inductive JVal where
  | null
  | bool (b : Bool)
  | num (n : Int)
  | str (s : String)
  | arr (xs : List JVal)
  | obj (fields : List (String × JVal))

instance : Inhabited JVal := ⟨JVal.null⟩

/-- First binding of key `k` in an association list (Python dicts from JSON
have no duplicate keys, so first = only). -/
def lookupField (k : String) : List (String × JVal) → Option JVal
  | [] => none
  | (k2, v) :: rest => if k2 = k then some v else lookupField k rest

/-- Python `d[k] = v` on a dict: replace in place, else append. -/
def setField (k : String) (v : JVal) : List (String × JVal) → List (String × JVal)
  | [] => [(k, v)]
  | (k2, w) :: rest => if k2 = k then (k, v) :: rest else (k2, w) :: setField k v rest

/-- Python `del d[k]`: remove the binding of `k`. -/
def removeField (k : String) : List (String × JVal) → List (String × JVal)
  | [] => []
  | (k2, w) :: rest => if k2 = k then rest else (k2, w) :: removeField k rest

/-- Python truthiness of a JSON value. -/
def truthy : JVal → Bool
  | .null => false
  | .bool b => b
  | .num n => n != 0
  | .str s => s != ""
  | .arr xs => !xs.isEmpty
  | .obj fs => !fs.isEmpty

mutual

/-- Python `==` on JSON values: numbers and booleans compare by value
(`True == 1`), lists element-wise in order, dicts by unordered key lookup. -/
def pyEq : JVal → JVal → Bool
  | .null, .null => true
  | .bool a, .bool b => a == b
  | .bool a, .num b => (if a then (1 : Int) else 0) == b
  | .num a, .bool b => a == (if b then (1 : Int) else 0)
  | .num a, .num b => a == b
  | .str a, .str b => a == b
  | .arr a, .arr b => pyEqList a b
  | .obj a, .obj b => a.length == b.length && pyEqFields a b
  | _, _ => false

def pyEqList : List JVal → List JVal → Bool
  | [], [] => true
  | x :: xs, y :: ys => pyEq x y && pyEqList xs ys
  | _, _ => false

def pyEqFields : List (String × JVal) → List (String × JVal) → Bool
  | [], _ => true
  | (k, v) :: rest, b =>
    (match lookupField k b with
     | some w => pyEq v w
     | none => false) && pyEqFields rest b

end

mutual

/-- Python `str()` as used in f-strings: a `str` prints raw, everything else
prints as its `repr`. -/
def pyStr : JVal → String
  | .str s => s
  | v => pyRepr v

/-- Python `repr()` of a JSON value (common case: no escaping needed). -/
def pyRepr : JVal → String
  | .null => "None"
  | .bool true => "True"
  | .bool false => "False"
  | .num n => toString n
  | .str s => "\x27" ++ s ++ "\x27"
  | .arr xs => "[" ++ pyReprList xs ++ "]"
  | .obj fs => "\x7b" ++ pyReprFields fs ++ "\x7d"

def pyReprList : List JVal → String
  | [] => ""
  | [x] => pyRepr x
  | x :: xs => pyRepr x ++ ", " ++ pyReprList xs

def pyReprFields : List (String × JVal) → String
  | [] => ""
  | [(k, v)] => "\x27" ++ k ++ "\x27: " ++ pyRepr v
  | (k, v) :: fs => "\x27" ++ k ++ "\x27: " ++ pyRepr v ++ ", " ++ pyReprFields fs

end

/-- Python subscript `v[k]` with a string key: `KeyError` when absent,
`TypeError` when `v` is not a dict. -/
def pySub (v : JVal) (k : String) : Except String JVal :=
  match v with
  | .obj fs =>
    match lookupField k fs with
    | some w => .ok w
    | none => .error ("KeyError: " ++ k)
  | _ => .error ("TypeError: value is not subscriptable by " ++ k)

/-- Python one-argument `v.get(k)`: `None` when absent, `AttributeError`
when `v` is not a dict. -/
def pyGetKey (v : JVal) (k : String) : Except String JVal :=
  match v with
  | .obj fs => .ok ((lookupField k fs).getD .null)
  | _ => .error ("AttributeError: no attribute get on value for key " ++ k)

/-- Python two-argument `v.get(k, dflt)`. -/
def pyGetD (v : JVal) (k : String) (dflt : JVal) : Except String JVal :=
  match v with
  | .obj fs => .ok ((lookupField k fs).getD dflt)
  | _ => .error ("AttributeError: no attribute get on value for key " ++ k)

/-- Python `len(v)`: defined for strings, lists and dicts. -/
def pyLen (v : JVal) : Except String Nat :=
  match v with
  | .str s => .ok s.length
  | .arr xs => .ok xs.length
  | .obj fs => .ok fs.length
  | _ => .error "TypeError: object has no len"

/-- `del v[k]` on a dict (the callers guard with a truthy `get` first, so the
non-dict case is unreachable there and is the identity here). -/
def pyDelKey (v : JVal) (k : String) : JVal :=
  match v with
  | .obj fs => .obj (removeField k fs)
  | w => w

/-- The `if x.get(k, None): del x[k]` idiom used by `create_dashboard`. -/
def stripIfTruthy (v : JVal) (k : String) : Except String JVal := do
  let x ← pyGetKey v k
  .ok (if truthy x then pyDelKey v k else v)

/-- `next((v for v in variables if v.get("query") == "prometheus"), {})`. -/
def nextQueryPrometheus : List JVal → Except String JVal
  | [] => .ok (.obj [])
  | v :: rest => do
    let q ← pyGetKey v ("query")
    if pyEq q (.str ("prometheus")) then .ok v else nextQueryPrometheus rest

/-- `next((v for v in variables if v.get("name") == "datasource"), {})`. -/
def nextNamedDatasource : List JVal → Except String JVal
  | [] => .ok (.obj [])
  | v :: rest => do
    let q ← pyGetKey v ("name")
    if pyEq q (.str ("datasource")) then .ok v else nextNamedDatasource rest

/-- Python `for v in x` element sequence: lists by element, strings by
character, dicts by key; other values are not iterable. -/
def pyIterate : JVal → Except String (List JVal)
  | .arr xs => .ok xs
  | .str s => .ok (s.toList.map (fun c => JVal.str (String.mk [c])))
  | .obj fs => .ok (fs.map (fun p => JVal.str p.1))
  | _ => .error "TypeError: value is not iterable"

/-- `validate_dashboard_errors` (grafana.py lines 167-193).  `.ok (some m)`
is a returned error message, `.ok none` the implicit `None`, `.error` a
raised exception. -/
def validate_dashboard_errors (data : JVal) : Except String (Option String) := do
  let dashboard ← pyGetKey data ("dashboard")
  if !truthy dashboard then
    return some ("Invalid dashboard, missing \x27dashboard\x27 key")
  let title ← pyGetKey dashboard ("title")
  if !truthy title then
    return some ("Invalid dashboard, missing \x27title\x27 key")
  let uid ← pyGetKey dashboard ("uid")
  if !truthy uid then
    return some ("Invalid dashboard, missing \x27uid\x27 key")
  let l ← pyLen uid
  if l > 40 then
    return some ("Dashboard uid \x27" ++ pyStr uid ++
      "\x27 is too long, must be less than 40 characters")
  let templating ← pyGetD dashboard ("templating") (.obj [])
  if !truthy templating then
    return some ("Dashboard is missing \x27templating\x27 key")
  let varList ← pyGetD templating ("list") (.arr [])
  if !truthy varList then
    return some ("Dashboard does not have any variables set")
  let elems ← pyIterate varList
  let var_datasource ← nextQueryPrometheus elems
  if !truthy var_datasource then
    return some ("Dashboard does not have a datasource of type prometheus")
  return none

/-- `validate_dashboard_warnings` (grafana.py lines 196-203).  Note the first
`get` is the one-argument form: a document without a `"dashboard"` key yields
`None`, and `None.get` raises. -/
def validate_dashboard_warnings (data : JVal) : Except String (Option String) := do
  let dashboard ← pyGetKey data ("dashboard")
  let templating ← pyGetD dashboard ("templating") (.obj [])
  let varList ← pyGetD templating ("list") (.arr [])
  let elems ← pyIterate varList
  let var_datasource ← nextNamedDatasource elems
  let regex ← pyGetKey var_datasource ("regex")
  if !truthy regex then
    return some ("Dashboard does not have a regex set for the datasource variable")
  return none

/-- A remote folder as returned by `az grafana folder list` (only the two
fields the tool reads). -/
structure Folder where
  title : String
  uid : String
deriving DecidableEq

/-- A remote dashboard summary as returned by `az grafana dashboard list`:
`uid` and `title` are always present, `folderUid` may be absent
(`d.get("folderUid", "")` in the source). -/
structure RemoteDash where
  uid : String
  title : String
  folderUid : Option String
deriving DecidableEq

/-- Observable side effects of one run.  `azDeleteDashboard` is the actual
`az grafana dashboard delete` subprocess; `deleteDashboardCall` is the
invocation of `GrafanaRunner.delete_dashboard` itself. -/
inductive Eff where
  | printOut (s : String)
  | dryPrint (cmd : String)
  | azCreateFolder (name : String)
  | azWriteDashboard (body : JVal)
  | azFetchDashboard (uid : String)
  | deleteDashboardCall (title : String)
  | azDeleteDashboard (uid : String)
  | printTable (rows : List (String × JVal × String))

def countWrites : List Eff → Nat
  | [] => 0
  | .azWriteDashboard _ :: t => countWrites t + 1
  | _ :: t => countWrites t

def countAzDeletes : List Eff → Nat
  | [] => 0
  | .azDeleteDashboard _ :: t => countAzDeletes t + 1
  | _ :: t => countAzDeletes t

def countDeleteCalls : List Eff → Nat
  | [] => 0
  | .deleteDashboardCall _ :: t => countDeleteCalls t + 1
  | _ :: t => countDeleteCalls t

def countAzCreateFolders : List Eff → Nat
  | [] => 0
  | .azCreateFolder _ :: t => countAzCreateFolders t + 1
  | _ :: t => countAzCreateFolders t

/-- `GrafanaRunner.create_folder`: dry-run prints and returns `{}`;
otherwise the az call runs and its JSON result comes from the remote
(modelled by `oracle`, indexed by how many folder creations ran so far). -/
def runner_create_folder (dry : Bool) (oracle : Nat → JVal) (k : Nat)
    (name : String) : JVal × List Eff × Nat :=
  if dry then (.obj [], [.dryPrint ("az grafana folder create " ++ name)], k)
  else (oracle k, [.azCreateFolder name], k + 1)

/-- `GrafanaRunner.create_dashboard`: dry-run prints; otherwise the az
update command runs on the dumped file body. -/
def runner_create_dashboard (dry : Bool) (body : JVal) : List Eff :=
  if dry then [.dryPrint ("az grafana dashboard update")]
  else [.azWriteDashboard body]

/-- `GrafanaRunner.delete_dashboard` (grafana.py lines 56-61): dry-run prints
the command; in the non-dry branch the source contains the bare expression
`command_to_run`, which evaluates the string and discards it, so no
subprocess runs and no `azDeleteDashboard` event is ever produced. -/
def runner_delete_dashboard (dry : Bool) (uid : String) : List Eff :=
  if dry then [.dryPrint ("az grafana dashboard delete " ++ uid)]
  else []

/-- `get_folder_uid`: uid of the first folder whose title matches, or `""`. -/
def get_folder_uid (name : String) (grafana_folders : List Folder) : String :=
  match grafana_folders.filter (fun f => f.title == name) with
  | [] => ""
  | f :: _ => f.uid

/-- `get_or_create_folder`: look up the name in the listing captured at run
start; on miss, create and return the `uid` field of the creation result
(`""` default).  Returns the resolved uid (a JSON value, as in the source,
where `.get` may return any type), the effect trace, and the new creation
counter. -/
def get_or_create_folder (name : String) (existing_folders : List Folder)
    (dry : Bool) (oracle : Nat → JVal) (k : Nat) :
    List Eff × Except String (JVal × Nat) :=
  let existing_uid := get_folder_uid name existing_folders
  if existing_uid != "" then ([], .ok (.str existing_uid, k))
  else
    let r := runner_create_folder dry oracle k name
    match pyGetD r.1 ("uid") (.str "") with
    | .ok v => (r.2.1, .ok (v, r.2.2))
    | .error e => (r.2.1, .error e)

/-- `v[k] = w` on a value already known to be a dict (identity otherwise;
callers only reach it after a successful dict operation on `v`). -/
def pySetField (v : JVal) (k : String) (w : JVal) : JVal :=
  match v with
  | .obj fs => .obj (setField k w fs)
  | x => x

/-- Raising form of `v[k] = w` (Python `TypeError` on a non-dict). -/
def pySetKey (v : JVal) (k : String) (w : JVal) : Except String JVal :=
  match v with
  | .obj fs => .ok (.obj (setField k w fs))
  | _ => .error ("TypeError: value does not support item assignment for " ++ k)

/-- `dashboard["dashboard"]["title"]`, as evaluated by the f-string prints in
`create_dashboard` and by the bookkeeping in `main`. -/
def docTitle (doc : JVal) : Except String JVal := do
  let inner ← pySub doc ("dashboard")
  pySub inner ("title")

/-- The tail of `create_dashboard` once `create_or_update` is decided true:
print the decision (which subscripts the title and can raise) and issue the
write of the file body dumped earlier. -/
def writeStep (fileBody mutated : JVal) (pre : List Eff) (dry : Bool) :
    List Eff × Except String JVal :=
  match docTitle mutated with
  | .error e => (pre, .error e)
  | .ok ttl =>
    (pre ++ [.printOut ("Dashboard \x27" ++ pyStr ttl ++
        "\x27 differs or does not exist update needed")]
      ++ runner_create_dashboard dry fileBody, .ok mutated)

/-- `create_dashboard` (grafana.py lines 102-147).  The temp file is dumped
right after `dashboard["folderUid"] = folder_uid`, so the body a write
uploads is `stamped` even though `id`/`version` are deleted from the
in-memory dict afterwards.  Returns the effect trace and the (mutated)
desired document that `main` keeps using. -/
def create_dashboard (dashboard : JVal) (folder_uid : JVal)
    (existing_dashboards : List RemoteDash) (showDash : String → JVal)
    (dry : Bool) : List Eff × Except String JVal :=
  match pySetKey dashboard ("folderUid") folder_uid with
  | .error e => ([], .error e)
  | .ok stamped =>
    let foundE : Except String (List RemoteDash) :=
      match existing_dashboards with
      | [] => .ok []
      | _ => do
        let inner ← pySub stamped ("dashboard")
        let duid ← pySub inner ("uid")
        .ok (existing_dashboards.filter (fun e =>
          pyEq (JVal.str e.uid) duid &&
            pyEq (JVal.str (e.folderUid.getD "")) folder_uid))
    match foundE with
    | .error e => ([], .error e)
    | .ok [] => writeStep stamped stamped [] dry
    | .ok [e0] =>
      let fetched := showDash e0.uid
      let pre : List Eff := [.azFetchDashboard e0.uid]
      let cmpE : Except String (JVal × JVal) := do
        let remoteInner ← pySub fetched ("dashboard")
        let r1 ← stripIfTruthy remoteInner ("uid")
        let r2 ← stripIfTruthy r1 ("id")
        let r3 ← stripIfTruthy r2 ("version")
        let desiredInner ← pySub stamped ("dashboard")
        let d1 ← stripIfTruthy desiredInner ("id")
        let d2 ← stripIfTruthy d1 ("version")
        .ok (r3, d2)
      match cmpE with
      | .error e => (pre, .error e)
      | .ok (r3, d2) =>
        let mutated := pySetField stamped ("dashboard") d2
        if pyEq r3 d2 then
          match docTitle mutated with
          | .error e => (pre, .error e)
          | .ok ttl =>
            (pre ++ [.printOut ("Dashboard \x27" ++ pyStr ttl ++
                "\x27 matches, no update needed")], .ok mutated)
        else
          writeStep stamped mutated pre dry
    | .ok _ => ([], .error "AssertionError: len(dashboard_found) == 1")

/-- The protected-folder loop of `delete_stale_dashboard`: resolve each
azure-managed folder name and bail out when the resolved uid is non-empty
and equals this dashboard's folder uid. -/
def protectedHit (azure_managed_folders : List String)
    (existing_folders : List Folder) (folder_uid : String) : Bool :=
  azure_managed_folders.any (fun amf =>
    let uid := get_folder_uid amf existing_folders
    uid != "" && uid == folder_uid)

/-- `delete_stale_dashboard` (grafana.py lines 150-164). -/
def delete_stale_dashboard (d : RemoteDash) (dashboards_visited : List String)
    (existing_folders : List Folder) (dry : Bool)
    (azure_managed_folders : List String) : List Eff :=
  let folder_uid := d.folderUid.getD ""
  if dashboards_visited.contains (folder_uid ++ "_" ++ d.title) then []
  else if protectedHit azure_managed_folders existing_folders folder_uid then []
  else .deleteDashboardCall d.title :: runner_delete_dashboard dry d.title

/-- Python substring test used for `"dashboard" in s` when `s` is a string. -/
def containsSubstr (s pat : String) : Bool := (s.splitOn pat).length > 1

/-- Python `k in v`: dict keys, list membership by `==`, substring. -/
def pyInKey (k : String) (v : JVal) : Except String Bool :=
  match v with
  | .obj fs => .ok (fs.any (fun p => p.1 == k))
  | .arr xs => .ok (xs.any (fun x => pyEq (JVal.str k) x))
  | .str s => .ok (containsSubstr s k)
  | _ => .error "TypeError: argument is not a container"

/-- The envelope synthesis of `fs_get_dashboards`: keep a document that
contains `"dashboard"`, wrap any other in `(dashboard : d)`. -/
def wrapDoc (d : JVal) : Except String JVal := do
  let b ← pyInKey ("dashboard") d
  .ok (if b then d else .obj [("dashboard", d)])

/-- The `for f in files` accumulation loop of `fs_get_dashboards`. -/
def wrapDocs : List JVal → Except String (List JVal)
  | [] => .ok []
  | d :: rest => do
    let w ← wrapDoc d
    let ws ← wrapDocs rest
    .ok (w :: ws)

/-- `fs_get_dashboards` over the parsed contents of the folder's json files
(file listing and json parsing are external; a parse failure is fatal). -/
def fs_get_dashboards (path : String) (docs : List JVal) :
    List Eff × Except String (List JVal) :=
  ([.printOut ("reading dashboards in " ++ path)], wrapDocs docs)

/-- Mutable driver state of `main`: folder-creation count (for the remote
oracle), the visited set, and the collected validation rows. -/
structure MState where
  folderCalls : Nat
  visited : List String
  errors : List (String × JVal × String)
  warnings : List (String × JVal × String)

/-- The body of `main`'s inner dashboard loop (grafana.py lines 247-265):
validate, record rows (the row subscripts the title and can raise), apply,
then add the visited key. -/
def procDoc (path : String) (folder_uid : JVal)
    (existing_dashboards : List RemoteDash) (showDash : String → JVal)
    (dry : Bool) (doc : JVal) (st : MState) : List Eff × Except String MState :=
  match validate_dashboard_errors doc with
  | .error e => ([], .error e)
  | .ok errOpt =>
    let stE : Except String MState :=
      match errOpt with
      | none => .ok st
      | some m => do
        let ttl ← docTitle doc
        .ok { st with errors := st.errors ++ [(path, ttl, m)] }
    match stE with
    | .error e => ([], .error e)
    | .ok st1 =>
      match validate_dashboard_warnings doc with
      | .error e => ([], .error e)
      | .ok wOpt =>
        let stE2 : Except String MState :=
          match wOpt with
          | none => .ok st1
          | some m => do
            let ttl ← docTitle doc
            .ok { st1 with warnings := st1.warnings ++ [(path, ttl, m)] }
        match stE2 with
        | .error e => ([], .error e)
        | .ok st2 =>
          match create_dashboard doc folder_uid existing_dashboards showDash dry with
          | (t, .error e) => (t, .error e)
          | (t, .ok doc2) =>
            match docTitle doc2 with
            | .error e => (t, .error e)
            | .ok ttl =>
              (t, .ok { st2 with visited :=
                st2.visited.insert (pyStr folder_uid ++ "_" ++ pyStr ttl) })

def procDocs (path : String) (folder_uid : JVal)
    (existing_dashboards : List RemoteDash) (showDash : String → JVal)
    (dry : Bool) : List JVal → MState → List Eff × Except String MState
  | [], st => ([], .ok st)
  | doc :: rest, st =>
    match procDoc path folder_uid existing_dashboards showDash dry doc st with
    | (t, .error e) => (t, .error e)
    | (t, .ok st2) =>
      let r := procDocs path folder_uid existing_dashboards showDash dry rest st2
      (t ++ r.1, r.2)

/-- One iteration of `main`'s folder loop: resolve the folder, read and wrap
its dashboards, process them in order. -/
def procFolder (existing_folders : List Folder)
    (existing_dashboards : List RemoteDash) (showDash : String → JVal)
    (dry : Bool) (oracle : Nat → JVal) (name path : String) (docs : List JVal)
    (st : MState) : List Eff × Except String MState :=
  let g := get_or_create_folder name existing_folders dry oracle st.folderCalls
  match g.2 with
  | .error e => (g.1, .error e)
  | .ok (folder_uid, k2) =>
    let st1 := { st with folderCalls := k2 }
    let f := fs_get_dashboards path docs
    match f.2 with
    | .error e => (g.1 ++ f.1, .error e)
    | .ok wrapped =>
      let r := procDocs path folder_uid existing_dashboards showDash dry wrapped st1
      (g.1 ++ f.1 ++ r.1, r.2)

def procFolders (existing_folders : List Folder)
    (existing_dashboards : List RemoteDash) (showDash : String → JVal)
    (dry : Bool) (oracle : Nat → JVal) :
    List (String × String × List JVal) → MState → List Eff × Except String MState
  | [], st => ([], .ok st)
  | (name, path, docs) :: rest, st =>
    match procFolder existing_folders existing_dashboards showDash dry oracle
        name path docs st with
    | (t, .error e) => (t, .error e)
    | (t, .ok st2) =>
      let r := procFolders existing_folders existing_dashboards showDash dry
        oracle rest st2
      (t ++ r.1, r.2)

/-- Inputs of one `main` run: the parsed observability config (folder name,
path, raw documents per folder; azure-managed folder names), the remote
listings captured at start, the dry-run flag, and the remote responses for
folder creation and dashboard fetches. -/
structure MainInput where
  cfgFolders : List (String × String × List JVal)
  azureManagedFolders : List String
  existing_folders : List Folder
  existing_dashboards : List RemoteDash
  dry : Bool
  folderOracle : Nat → JVal
  showDash : String → JVal

/-- `main` (grafana.py lines 220-283): the folder/dashboard loops, then the
reclaim pass over the remote listing, then the warning table, then the error
table with `exit(1)`.  Result: effect trace plus exit code (`.error` models
an uncaught exception aborting the process). -/
def mainRun (inp : MainInput) : List Eff × Except String Nat :=
  let p := procFolders inp.existing_folders inp.existing_dashboards inp.showDash
    inp.dry inp.folderOracle inp.cfgFolders ⟨0, [], [], []⟩
  match p.2 with
  | .error e => (p.1, .error e)
  | .ok st =>
    let td := (inp.existing_dashboards.map (fun d =>
      delete_stale_dashboard d st.visited inp.existing_folders inp.dry
        inp.azureManagedFolders)).flatten
    let tw := if st.warnings.isEmpty then [] else
      [.printOut ("The following dashboards have warnings:"), .printTable st.warnings]
    let te := if st.errors.isEmpty then [] else
      [.printOut ("The following dashboards have errors and need to be fixed:"),
       .printTable st.errors]
    (p.1 ++ td ++ tw ++ te, .ok (if st.errors.isEmpty then 0 else 1))

/-
Theorems.
-/

/-- Removing all three mutable fields (`uid`, `id`, `version`) from a body:
the stripping the design document prescribes for BOTH sides of the diff. -/
def stripMutable (v : JVal) : JVal :=
  pyDelKey (pyDelKey (pyDelKey v ("uid")) ("id")) ("version")

/-- A desired dashboard document used as a concrete run input: valid by every
rule of `validate_dashboard_errors`. -/
def sampleDesired : JVal := .obj [("dashboard", .obj
  [("uid", .str ("abc")), ("title", .str ("Overview")),
   ("templating", .obj [("list", .arr [.obj [("query", .str ("prometheus"))]])])])]

/-- The inner body of `sampleDesired`. -/
def sampleInner : JVal := .obj
  [("uid", .str ("abc")), ("title", .str ("Overview")),
   ("templating", .obj [("list", .arr [.obj [("query", .str ("prometheus"))]])])]

/-- A fetched remote body identical to `sampleDesired`'s inner document except
for the server-assigned `id` and `version` (and the same `uid`). -/
def sampleRemoteInner : JVal := .obj
  [("uid", .str ("abc")), ("title", .str ("Overview")),
   ("templating", .obj [("list", .arr [.obj [("query", .str ("prometheus"))]])]),
   ("id", .num 5), ("version", .num 3)]

def sampleShow : String → JVal := fun _ => .obj [("dashboard", sampleRemoteInner)]

def sampleExisting : List RemoteDash := [⟨"abc", "Overview", some ("F")⟩]

/-- Claim C1: in the diff step of `create_dashboard`, the mutable fields
`uid`, `id`, `version` are claimed to be stripped from BOTH bodies, so two
bodies differing only in those fields should be judged equal with no write.
The code strips `uid` from the fetched body only: on a remote body equal to
the desired one up to `id`/`version` (same `uid`), the comparison judges the
bodies unequal and a write is issued. -/
theorem create_dashboard_strips_uid_only_from_remote :
    pyEq (stripMutable sampleRemoteInner) (stripMutable sampleInner) = true
    ∧ countWrites (create_dashboard sampleDesired (.str ("F")) sampleExisting
        sampleShow false).1 = 1 := by
  constructor
  · rfl
  · rfl

/-- The remote body after the first run wrote `sampleDesired`: the uploaded
inner document with a server-assigned `id` and `version`. -/
def sampleServerInner : JVal := .obj
  [("uid", .str ("abc")), ("title", .str ("Overview")),
   ("templating", .obj [("list", .arr [.obj [("query", .str ("prometheus"))]])]),
   ("id", .num 1), ("version", .num 1)]

def sampleShowAfterRun1 : String → JVal :=
  fun u => if u == "abc" then .obj [("dashboard", sampleServerInner)] else .null

/-- Claim C2: running `create_dashboard` a second time with the remote state
exactly as the first run left it should issue zero writes.  The first run
(empty remote) writes the dashboard; the second run, fetching back the body
the first run uploaded (plus server-assigned `id`/`version`), issues a write
again, because the desired body keeps its `uid` while the fetched body has
its `uid` stripped. -/
theorem create_dashboard_not_idempotent :
    countWrites (create_dashboard sampleDesired (.str ("F")) [] sampleShow
      false).1 = 1
    ∧ countWrites (create_dashboard sampleDesired (.str ("F"))
        [⟨"abc", "Overview", some ("F")⟩] sampleShowAfterRun1 false).1 = 1 := by
  constructor
  · rfl
  · rfl

/-- Claim C3: an unvisited remote dashboard in an unprotected folder should
have exactly one delete call issued to the remote service.  The runner method
is invoked once, but `GrafanaRunner.delete_dashboard` (non-dry-run) only
evaluates the command string without running it, so zero delete commands
reach the service. -/
theorem delete_stale_never_reaches_remote :
    delete_stale_dashboard ⟨"sd1", "Extra", some ("svcuid")⟩ []
      [⟨"svc", "svcuid"⟩] false ["Azure Monitor"] =
        [.deleteDashboardCall ("Extra")]
    ∧ countAzDeletes (delete_stale_dashboard ⟨"sd1", "Extra", some ("svcuid")⟩ []
        [⟨"svc", "svcuid"⟩] false ["Azure Monitor"]) = 0
    ∧ countDeleteCalls (delete_stale_dashboard ⟨"sd1", "Extra", some ("svcuid")⟩ []
        [⟨"svc", "svcuid"⟩] false ["Azure Monitor"]) = 1 := by
  refine ⟨rfl, rfl, rfl⟩

/-- Claim C4, counterexample: a protected folder name absent from the remote
listing resolves to `""`; a dashboard with no `folderUid` has folder uid `""`
as well, so its folder uid equals the resolved uid of a protected name, yet
the delete operation is still invoked (the code guards with `if uid and`). -/
theorem delete_stale_protected_empty_uid_counterexample :
    get_folder_uid ("ProtectedX") [] =
      ((⟨"d1", "Orphan", none⟩ : RemoteDash).folderUid.getD "")
    ∧ countDeleteCalls (delete_stale_dashboard ⟨"d1", "Orphan", none⟩ [] []
        false ["ProtectedX"]) = 1 := by
  refine ⟨rfl, rfl⟩

/-- Claim C4, amended: `delete_stale_dashboard` never invokes the delete
operation for a visited key, and never for a dashboard whose folder uid
equals the uid resolved from a protected folder name provided that resolved
uid is non-empty (a protected name missing from the listing resolves to `""`
and protects nothing). -/
theorem delete_stale_spares_visited_and_protected (d : RemoteDash)
    (visited : List String) (folders : List Folder) (dry : Bool)
    (amf : List String) :
    (visited.contains (d.folderUid.getD "" ++ "_" ++ d.title) = true →
      delete_stale_dashboard d visited folders dry amf = [])
    ∧ (∀ name ∈ amf, get_folder_uid name folders ≠ "" →
        get_folder_uid name folders = d.folderUid.getD "" →
        delete_stale_dashboard d visited folders dry amf = []) := by
  constructor
  · intro h
    simp only [delete_stale_dashboard, h, if_true]
  · intro name hmem hne heq
    have hp : protectedHit amf folders (d.folderUid.getD "") = true := by
      simp only [protectedHit, List.any_eq_true]
      refine ⟨name, hmem, ?_⟩
      simp only [Bool.and_eq_true, bne_iff_ne, ne_eq, beq_iff_eq]
      exact ⟨hne, heq⟩
    simp only [delete_stale_dashboard, hp, if_true]
    split <;> rfl

theorem delete_stale_spares_visited_and_protected_witness :
    delete_stale_dashboard ⟨"d2", "Visited", some ("fu")⟩ ["fu_Visited"] []
      false [] = []
    ∧ delete_stale_dashboard ⟨"d3", "SysBoard", some ("pu")⟩ []
      [⟨"Azure Monitor", "pu"⟩] false ["Azure Monitor"] = [] :=
  ⟨(delete_stale_spares_visited_and_protected _ _ _ _ _).1 (by decide),
   (delete_stale_spares_visited_and_protected _ _ _ _ _).2 ("Azure Monitor")
     (by decide) (by decide) (by decide)⟩

def freshUidOracle : Nat → JVal :=
  fun n => match n with
  | 0 => .obj [("uid", .str ("u0"))]
  | _ => .obj [("uid", .str ("u1"))]

/-- Claim C5, counterexample: `get_or_create_folder` keeps no cache and the
folder listing is never refreshed, so two calls for a name absent from the
listing issue two create-folder calls to the remote and return the uids of
the two distinct created folders. -/
theorem get_or_create_folder_no_memoization_counterexample :
    get_or_create_folder ("X") [] false freshUidOracle 0 =
      ([.azCreateFolder ("X")], .ok (.str ("u0"), 1))
    ∧ get_or_create_folder ("X") [] false freshUidOracle 1 =
      ([.azCreateFolder ("X")], .ok (.str ("u1"), 2))
    ∧ ("u0" : String) ≠ "u1" := by
  refine ⟨rfl, rfl, by decide⟩

/-- Claim C5, amended: for a name present in the listing repeated calls
return the listed uid with no create call; for an absent name every call
issues its own create-folder call and returns the `uid` field of that call's
result, so two successive calls create twice and agree only if the remote
happens to return the same uid. -/
theorem get_or_create_folder_amended (name : String) (folders : List Folder)
    (oracle : Nat → JVal) (k : Nat) (u1 u2 : JVal)
    (h1 : pyGetD (oracle k) ("uid") (.str "") = .ok u1)
    (h2 : pyGetD (oracle (k + 1)) ("uid") (.str "") = .ok u2) :
    (get_folder_uid name folders ≠ "" → ∀ dry,
      get_or_create_folder name folders dry oracle k =
        ([], .ok (.str (get_folder_uid name folders), k)))
    ∧ (get_folder_uid name folders = "" →
      get_or_create_folder name folders false oracle k =
        ([.azCreateFolder name], .ok (u1, k + 1))
      ∧ get_or_create_folder name folders false oracle (k + 1) =
        ([.azCreateFolder name], .ok (u2, k + 2))) := by
  constructor
  · intro h dry
    simp [get_or_create_folder, h]
  · intro h
    constructor
    · simp [get_or_create_folder, h, runner_create_folder, h1]
    · simp [get_or_create_folder, h, runner_create_folder, h2]

theorem get_or_create_folder_amended_witness :
    get_or_create_folder ("svc") [⟨"svc", "F"⟩] true freshUidOracle 0 =
      ([], .ok (.str ("F"), 0))
    ∧ get_or_create_folder ("X") [] false freshUidOracle 0 =
      ([.azCreateFolder ("X")], .ok (.str ("u0"), 1)) :=
  ⟨(get_or_create_folder_amended ("svc") [⟨"svc", "F"⟩] freshUidOracle 0
      (.str ("u0")) (.str ("u1")) (by rfl) (by rfl)).1 (by decide) true,
   ((get_or_create_folder_amended ("X") [] freshUidOracle 0
      (.str ("u0")) (.str ("u1")) (by rfl) (by rfl)).2 (by rfl)).1⟩

/-- Claim C6, counterexample: with two remote folders both titled `"a"`,
resolution returns the uid of the first one and completes normally instead
of failing loudly. -/
theorem get_folder_uid_duplicate_counterexample :
    get_folder_uid ("a") [⟨"a", "u1"⟩, ⟨"a", "u2"⟩] = "u1" := by rfl

/-- Claim C6, amended: `get_folder_uid` silently returns the uid of the
first folder whose title matches, whatever comes later in the listing
(duplicate titles included); it has no failure path. -/
theorem get_folder_uid_returns_first_match (name : String) (a : Folder)
    (pre post : List Folder) (ha : a.title = name)
    (hpre : ∀ b ∈ pre, b.title ≠ name) :
    get_folder_uid name (pre ++ a :: post) = a.uid := by
  induction pre with
  | nil => simp [get_folder_uid, List.filter_cons, ha]
  | cons b rest ih =>
    have hb : b.title ≠ name := hpre b (by simp)
    have := ih (fun c hc => hpre c (by simp [hc]))
    simpa [get_folder_uid, List.filter_cons, hb] using this

theorem get_folder_uid_returns_first_match_witness :
    get_folder_uid ("a") [⟨"b", "u0"⟩, ⟨"a", "u1"⟩, ⟨"a", "u2"⟩] = "u1" :=
  get_folder_uid_returns_first_match ("a") ⟨"a", "u1"⟩ [⟨"b", "u0"⟩]
    [⟨"a", "u2"⟩] (by decide) (by decide)

/-- Claim C8, counterexample: a dashboard with an envelope and no templating
variable named `"datasource"` at all: the claim says no warning is produced,
but the code falls back to the empty dict, whose `regex` is falsy, and
returns the warning. -/
theorem warnings_fire_without_datasource_variable :
    validate_dashboard_warnings (.obj [("dashboard", .obj [])]) =
      .ok (some ("Dashboard does not have a regex set for the datasource variable")) := by
  rfl

/-- Claim C8, amended: for every document whose envelope survives the lookup
chain, the warning fires exactly when the variable selected by
`next((v ... if v.get("name") == "datasource"), {})` — the empty dict when no
such variable exists — has a falsy `regex`; in particular the absence of a
`datasource` variable produces the warning rather than suppressing it. -/
theorem warnings_iff_first_datasource_regex_falsy (data dash templ lst dv r : JVal)
    (vars : List JVal)
    (hd : pyGetKey data ("dashboard") = .ok dash)
    (ht : pyGetD dash ("templating") (.obj []) = .ok templ)
    (hl : pyGetD templ ("list") (.arr []) = .ok lst)
    (hi : pyIterate lst = .ok vars)
    (hn : nextNamedDatasource vars = .ok dv)
    (hr : pyGetKey dv ("regex") = .ok r) :
    validate_dashboard_warnings data = .ok (if truthy r then none else
      some ("Dashboard does not have a regex set for the datasource variable")) := by
  simp only [validate_dashboard_warnings, hd, ht, hl, hi, hn, hr, bind, Except.bind]
  cases truthy r <;> rfl

theorem warnings_iff_first_datasource_regex_falsy_witness :
    validate_dashboard_warnings (.obj [("dashboard", .obj [("templating",
      .obj [("list", .arr [.obj [("name", .str ("datasource")),
        ("regex", .str ("prom.*"))]])])])]) = .ok none :=
  warnings_iff_first_datasource_regex_falsy _ _ _ _
    (.obj [("name", .str ("datasource")), ("regex", .str ("prom.*"))])
    (.str ("prom.*")) _ (by rfl) (by rfl) (by rfl) (by rfl) (by rfl) (by rfl)

/-- Claim C10: on a document without the `"dashboard"` envelope key,
`validate_dashboard_warnings` raises (attribute access on `None`), while
`validate_dashboard_errors` returns the missing-envelope message. -/
theorem warnings_raise_errors_return_on_missing_envelope
    (fs : List (String × JVal)) (h : lookupField ("dashboard") fs = none) :
    validate_dashboard_warnings (.obj fs) =
      .error ("AttributeError: no attribute get on value for key templating")
    ∧ validate_dashboard_errors (.obj fs) =
      .ok (some ("Invalid dashboard, missing \x27dashboard\x27 key")) := by
  constructor
  · simp [validate_dashboard_warnings, pyGetKey, h, pyGetD, bind, Except.bind]
  · simp [validate_dashboard_errors, pyGetKey, h, truthy, bind, Except.bind,
      pure, Except.pure]

theorem warnings_raise_errors_return_on_missing_envelope_witness :
    validate_dashboard_warnings (.obj []) =
      .error ("AttributeError: no attribute get on value for key templating")
    ∧ validate_dashboard_errors (.obj []) =
      .ok (some ("Invalid dashboard, missing \x27dashboard\x27 key")) :=
  warnings_raise_errors_return_on_missing_envelope [] (by rfl)

/-
The spec side of claim C7: the seven error rules as independent checks, to
be run in priority order with the first failing rule's message returned.
-/

/-- Spec rule 1: missing `dashboard` envelope. -/
def specRule1 (data : JVal) : Except String (Option String) := do
  let dashboard ← pyGetKey data ("dashboard")
  .ok (if !truthy dashboard then
    some ("Invalid dashboard, missing \x27dashboard\x27 key") else none)

/-- Spec rule 2: missing `title`. -/
def specRule2 (data : JVal) : Except String (Option String) := do
  let dashboard ← pyGetKey data ("dashboard")
  let title ← pyGetKey dashboard ("title")
  .ok (if !truthy title then
    some ("Invalid dashboard, missing \x27title\x27 key") else none)

/-- Spec rule 3: missing `uid`. -/
def specRule3 (data : JVal) : Except String (Option String) := do
  let dashboard ← pyGetKey data ("dashboard")
  let uid ← pyGetKey dashboard ("uid")
  .ok (if !truthy uid then
    some ("Invalid dashboard, missing \x27uid\x27 key") else none)

/-- Spec rule 4: `uid` length over 40. -/
def specRule4 (data : JVal) : Except String (Option String) := do
  let dashboard ← pyGetKey data ("dashboard")
  let uid ← pyGetKey dashboard ("uid")
  let l ← pyLen uid
  .ok (if l > 40 then
    some ("Dashboard uid \x27" ++ pyStr uid ++
      "\x27 is too long, must be less than 40 characters") else none)

/-- Spec rule 5: missing `templating` block. -/
def specRule5 (data : JVal) : Except String (Option String) := do
  let dashboard ← pyGetKey data ("dashboard")
  let templating ← pyGetD dashboard ("templating") (.obj [])
  .ok (if !truthy templating then
    some ("Dashboard is missing \x27templating\x27 key") else none)

/-- Spec rule 6: empty `templating.list`. -/
def specRule6 (data : JVal) : Except String (Option String) := do
  let dashboard ← pyGetKey data ("dashboard")
  let templating ← pyGetD dashboard ("templating") (.obj [])
  let varList ← pyGetD templating ("list") (.arr [])
  .ok (if !truthy varList then
    some ("Dashboard does not have any variables set") else none)

/-- Spec rule 7: no templating variable whose query is `"prometheus"`. -/
def specRule7 (data : JVal) : Except String (Option String) := do
  let dashboard ← pyGetKey data ("dashboard")
  let templating ← pyGetD dashboard ("templating") (.obj [])
  let varList ← pyGetD templating ("list") (.arr [])
  let elems ← pyIterate varList
  let var_datasource ← nextQueryPrometheus elems
  .ok (if !truthy var_datasource then
    some ("Dashboard does not have a datasource of type prometheus") else none)

/-- Run rules in order and return the message of the first rule that fails
(`none` when all pass); a rule that raises propagates its exception. -/
def firstFailingRule : List (JVal → Except String (Option String)) → JVal →
    Except String (Option String)
  | [], _ => .ok none
  | r :: rs, d =>
    match r d with
    | .error e => .error e
    | .ok (some m) => .ok (some m)
    | .ok none => firstFailingRule rs d

def specErrorRules : List (JVal → Except String (Option String)) :=
  [specRule1, specRule2, specRule3, specRule4, specRule5, specRule6, specRule7]

/-- If no element of the list is a dict with query `"prometheus"` (all being
dicts), the generator falls back to the empty dict. -/
theorem nextQueryPrometheus_none (vars : List JVal)
    (h : ∀ v ∈ vars, ∃ gs, v = .obj gs ∧
      pyEq ((lookupField ("query") gs).getD .null) (.str ("prometheus")) = false) :
    nextQueryPrometheus vars = .ok (.obj []) := by
  induction vars with
  | nil => rfl
  | cons v rest ih =>
    obtain ⟨gs, hv, hq⟩ := h v (by simp)
    subst hv
    simp only [nextQueryPrometheus, pyGetKey, bind, Except.bind, hq,
      Bool.false_eq_true, if_false]
    exact ih (fun w hw => h w (by simp [hw]))

/-- Claim C7: `validate_dashboard_errors` checks its seven rules in exactly
the priority order (1) missing envelope, (2) missing title, (3) missing uid,
(4) uid longer than 40, (5) missing templating, (6) empty templating.list,
(7) no prometheus-query variable, returning the first failing rule's message
and `None` when all pass; in particular a dashboard missing `uid`, one with
a `uid` over 40 characters, and one without a prometheus-sourced variable
each get an error message. -/
theorem validate_errors_priority_order :
    (∀ data, validate_dashboard_errors data = firstFailingRule specErrorRules data)
    ∧ (∀ fs dfs, lookupField ("dashboard") fs = some (.obj dfs) →
        truthy (.obj dfs) = true →
        truthy ((lookupField ("title") dfs).getD .null) = true →
        truthy ((lookupField ("uid") dfs).getD .null) = false →
        validate_dashboard_errors (.obj fs) =
          .ok (some ("Invalid dashboard, missing \x27uid\x27 key")))
    ∧ (∀ fs dfs s, lookupField ("dashboard") fs = some (.obj dfs) →
        truthy (.obj dfs) = true →
        truthy ((lookupField ("title") dfs).getD .null) = true →
        lookupField ("uid") dfs = some (.str s) → 40 < s.length →
        validate_dashboard_errors (.obj fs) =
          .ok (some ("Dashboard uid \x27" ++ s ++
            "\x27 is too long, must be less than 40 characters")))
    ∧ (∀ fs dfs s tfs vars, lookupField ("dashboard") fs = some (.obj dfs) →
        truthy (.obj dfs) = true →
        truthy ((lookupField ("title") dfs).getD .null) = true →
        lookupField ("uid") dfs = some (.str s) → s ≠ "" → ¬ 40 < s.length →
        lookupField ("templating") dfs = some (.obj tfs) →
        truthy (.obj tfs) = true →
        lookupField ("list") tfs = some (.arr vars) → vars ≠ [] →
        (∀ v ∈ vars, ∃ gs, v = .obj gs ∧
          pyEq ((lookupField ("query") gs).getD .null) (.str ("prometheus")) = false) →
        validate_dashboard_errors (.obj fs) =
          .ok (some ("Dashboard does not have a datasource of type prometheus"))) := by
  refine ⟨?_, ?_, ?_, ?_⟩
  · intro data
    cases hd : pyGetKey data ("dashboard") with
    | error e =>
      simp [validate_dashboard_errors, firstFailingRule, specErrorRules,
        specRule1, hd, bind, Except.bind]
    | ok dash =>
      cases htd : truthy dash with
      | false =>
        simp [validate_dashboard_errors, firstFailingRule, specErrorRules,
          specRule1, hd, htd, bind, Except.bind, pure, Except.pure]
      | true =>
        cases ht : pyGetKey dash ("title") with
        | error e =>
          simp [validate_dashboard_errors, firstFailingRule, specErrorRules,
            specRule1, specRule2, hd, htd, ht, bind, Except.bind, pure, Except.pure]
        | ok title =>
          cases htt : truthy title with
          | false =>
            simp [validate_dashboard_errors, firstFailingRule, specErrorRules,
              specRule1, specRule2, hd, htd, ht, htt, bind, Except.bind,
              pure, Except.pure]
          | true =>
            cases hu : pyGetKey dash ("uid") with
            | error e =>
              simp [validate_dashboard_errors, firstFailingRule, specErrorRules,
                specRule1, specRule2, specRule3, hd, htd, ht, htt, hu,
                bind, Except.bind, pure, Except.pure]
            | ok uid =>
              cases htu : truthy uid with
              | false =>
                simp [validate_dashboard_errors, firstFailingRule, specErrorRules,
                  specRule1, specRule2, specRule3, hd, htd, ht, htt, hu, htu,
                  bind, Except.bind, pure, Except.pure]
              | true =>
                cases hl : pyLen uid with
                | error e =>
                  simp [validate_dashboard_errors, firstFailingRule, specErrorRules,
                    specRule1, specRule2, specRule3, specRule4, hd, htd, ht, htt,
                    hu, htu, hl, bind, Except.bind, pure, Except.pure]
                | ok l =>
                  by_cases h40 : l > 40
                  · simp [validate_dashboard_errors, firstFailingRule, specErrorRules,
                      specRule1, specRule2, specRule3, specRule4, hd, htd, ht, htt,
                      hu, htu, hl, h40, bind, Except.bind, pure, Except.pure]
                  · cases htm : pyGetD dash ("templating") (.obj []) with
                    | error e =>
                      simp [validate_dashboard_errors, firstFailingRule, specErrorRules,
                        specRule1, specRule2, specRule3, specRule4, specRule5, hd,
                        htd, ht, htt, hu, htu, hl, h40, htm, bind, Except.bind,
                        pure, Except.pure]
                    | ok templ =>
                      cases htmt : truthy templ with
                      | false =>
                        simp [validate_dashboard_errors, firstFailingRule,
                          specErrorRules, specRule1, specRule2, specRule3, specRule4,
                          specRule5, hd, htd, ht, htt, hu, htu, hl, h40, htm, htmt,
                          bind, Except.bind, pure, Except.pure]
                      | true =>
                        cases hls : pyGetD templ ("list") (.arr []) with
                        | error e =>
                          simp [validate_dashboard_errors, firstFailingRule,
                            specErrorRules, specRule1, specRule2, specRule3,
                            specRule4, specRule5, specRule6, hd, htd, ht, htt, hu,
                            htu, hl, h40, htm, htmt, hls, bind, Except.bind,
                            pure, Except.pure]
                        | ok varList =>
                          cases hvt : truthy varList with
                          | false =>
                            simp [validate_dashboard_errors, firstFailingRule,
                              specErrorRules, specRule1, specRule2, specRule3,
                              specRule4, specRule5, specRule6, hd, htd, ht, htt,
                              hu, htu, hl, h40, htm, htmt, hls, hvt, bind,
                              Except.bind, pure, Except.pure]
                          | true =>
                            cases hit : pyIterate varList with
                            | error e =>
                              simp [validate_dashboard_errors, firstFailingRule,
                                specErrorRules, specRule1, specRule2, specRule3,
                                specRule4, specRule5, specRule6, specRule7, hd,
                                htd, ht, htt, hu, htu, hl, h40, htm, htmt, hls,
                                hvt, hit, bind, Except.bind, pure, Except.pure]
                            | ok elems =>
                              cases hn : nextQueryPrometheus elems with
                              | error e =>
                                simp [validate_dashboard_errors, firstFailingRule,
                                  specErrorRules, specRule1, specRule2, specRule3,
                                  specRule4, specRule5, specRule6, specRule7, hd,
                                  htd, ht, htt, hu, htu, hl, h40, htm, htmt, hls,
                                  hvt, hit, hn, bind, Except.bind, pure, Except.pure]
                              | ok vd =>
                                cases hvd : truthy vd with
                                | false =>
                                  simp [validate_dashboard_errors, firstFailingRule,
                                    specErrorRules, specRule1, specRule2, specRule3,
                                    specRule4, specRule5, specRule6, specRule7, hd,
                                    htd, ht, htt, hu, htu, hl, h40, htm, htmt, hls,
                                    hvt, hit, hn, hvd, bind, Except.bind, pure,
                                    Except.pure]
                                | true =>
                                  simp [validate_dashboard_errors, firstFailingRule,
                                    specErrorRules, specRule1, specRule2, specRule3,
                                    specRule4, specRule5, specRule6, specRule7, hd,
                                    htd, ht, htt, hu, htu, hl, h40, htm, htmt, hls,
                                    hvt, hit, hn, hvd, bind, Except.bind, pure,
                                    Except.pure]
  · intro fs dfs hdash hdt htitle huid
    simp [validate_dashboard_errors, pyGetKey, hdash, hdt, htitle, huid,
      bind, Except.bind, pure, Except.pure]
  · intro fs dfs s hdash hdt htitle huid h40
    have hs : s ≠ "" := by
      intro hcon
      subst hcon
      simp at h40
    have htu : truthy (JVal.str s) = true := by simp [truthy, hs]
    simp [validate_dashboard_errors, pyGetKey, pyLen, pyStr, hdash, hdt, htitle,
      huid, h40, htu, bind, Except.bind, pure, Except.pure]
  · intro fs dfs s tfs vars hdash hdt htitle huid hs h40 htempl htt hlist hvars hnone
    have hn := nextQueryPrometheus_none vars hnone
    have htu : truthy (JVal.str s) = true := by simp [truthy, hs]
    have hva : truthy (JVal.arr vars) = true := by simp [truthy, hvars]
    have hempty : truthy (JVal.obj []) = false := rfl
    simp [validate_dashboard_errors, pyGetKey, pyGetD, pyLen, pyIterate,
      hdash, hdt, htitle, huid, htu, h40, htempl, htt, hlist, hva, hn, hempty,
      bind, Except.bind, pure, Except.pure]

theorem validate_errors_priority_order_witness :
    validate_dashboard_errors (.obj [("dashboard", .obj [("title", .str ("T"))])]) =
      .ok (some ("Invalid dashboard, missing \x27uid\x27 key"))
    ∧ validate_dashboard_errors (.obj [("dashboard", .obj [("title", .str ("T")),
        ("uid", .str ("aaaaaaaaaabbbbbbbbbbccccccccccdddddddddd-toolong"))])]) =
      .ok (some ("Dashboard uid \x27aaaaaaaaaabbbbbbbbbbccccccccccdddddddddd-toolong" ++
        "\x27 is too long, must be less than 40 characters"))
    ∧ validate_dashboard_errors (.obj [("dashboard", .obj [("title", .str ("T")),
        ("uid", .str ("abc")),
        ("templating", .obj [("list", .arr [.obj [("query", .str ("loki"))]])])])]) =
      .ok (some ("Dashboard does not have a datasource of type prometheus")) :=
  ⟨validate_errors_priority_order.2.1 _ [("title", JVal.str ("T"))] (by rfl)
      (by rfl) (by rfl) (by rfl),
   validate_errors_priority_order.2.2.1 _
      [("title", JVal.str ("T")),
       ("uid", JVal.str ("aaaaaaaaaabbbbbbbbbbccccccccccdddddddddd-toolong"))]
      ("aaaaaaaaaabbbbbbbbbbccccccccccdddddddddd-toolong") (by rfl) (by rfl)
      (by rfl) (by rfl) (by decide),
   validate_errors_priority_order.2.2.2 _
      [("title", JVal.str ("T")), ("uid", JVal.str ("abc")),
       ("templating", JVal.obj [("list", JVal.arr [JVal.obj
         [("query", JVal.str ("loki"))]])])]
      ("abc") [("list", JVal.arr [JVal.obj [("query", JVal.str ("loki"))]])]
      [JVal.obj [("query", JVal.str ("loki"))]] (by rfl) (by rfl) (by rfl)
      (by rfl) (by decide) (by decide) (by rfl) (by rfl) (by rfl)
      (by exact List.cons_ne_nil _ _)
      (by intro v hv
          simp only [List.mem_singleton] at hv
          exact ⟨[("query", JVal.str ("loki"))], hv, by rfl⟩)⟩

/-
Claim C9: the driver's handling of validation errors and warnings.
-/

theorem lookupField_setField_ne (k k2 : String) (v : JVal)
    (fs : List (String × JVal)) (h : k ≠ k2) :
    lookupField k (setField k2 v fs) = lookupField k fs := by
  induction fs with
  | nil => simp [setField, lookupField, Ne.symm h]
  | cons p rest ih =>
    obtain ⟨pk, pv⟩ := p
    by_cases hpk : pk = k2
    · subst hpk
      simp [setField, lookupField, Ne.symm h]
    · simp only [setField, lookupField, hpk, if_false, ite_false]
      by_cases hk : pk = k
      · simp [hk]
      · simp [hk, ih]

theorem anyKey_of_lookup (k : String) (fs : List (String × JVal)) (v : JVal)
    (h : lookupField k fs = some v) : (fs.any (fun p => p.1 == k)) = true := by
  induction fs with
  | nil => simp [lookupField] at h
  | cons p rest ih =>
    obtain ⟨pk, pv⟩ := p
    by_cases hpk : pk = k
    · simp [hpk]
    · rw [lookupField] at h
      rw [if_neg hpk] at h
      simp [List.any_cons, hpk, ih h]

/-- A desired document whose envelope is present but empty. -/
def emptyEnvelopeDoc : JVal := .obj [("dashboard", .obj [])]

def crashInput : MainInput :=
  ⟨[("svc", "svc-path", [emptyEnvelopeDoc])], [], [⟨"svc", "F"⟩], [],
   false, fun _ => .obj [], fun _ => .null⟩

/-- Claim C9, counterexample: a dashboard whose (present) envelope is the
empty dict has a validation error, yet the run does not write it and then
signal failure at the end — recording the error row subscripts
`dashboard["dashboard"]["title"]`, which raises `KeyError` and aborts the run
before the apply step, with zero writes issued. -/
theorem main_crashes_recording_error :
    validate_dashboard_errors emptyEnvelopeDoc =
      .ok (some ("Invalid dashboard, missing \x27dashboard\x27 key"))
    ∧ (mainRun crashInput).2 = .error ("KeyError: title")
    ∧ countWrites (mainRun crashInput).1 = 0 := by
  refine ⟨rfl, rfl, rfl⟩

/-- Claim C9, amended: provided recording a validation row cannot raise (the
envelope carries a title) and the diff step cannot raise (the envelope
carries a uid, here distinct from the one remote summary's uid), a
validation error does not stop the dashboard from being written, the
reclaim pass still runs after the write, and the run exits 1 exactly when
some validation error was collected — warnings alone leave the exit at 0.
The run below has one configured folder `svc` (already remote as uid `F`),
one desired document, and one unvisited stale remote dashboard `Stale`. -/
theorem main_writes_despite_error_and_gates_exit (dfs : List (String × JVal))
    (inner : JVal) (t u : String) (errOpt wOpt : Option String)
    (orc : Nat → JVal) (sh : String → JVal)
    (hlook : lookupField ("dashboard") dfs = some inner)
    (htitle : pySub inner ("title") = .ok (.str t))
    (huid : pySub inner ("uid") = .ok (.str u))
    (hu : u ≠ "SU")
    (hkey : ("F_" ++ t) ≠ "F_Stale")
    (herr : validate_dashboard_errors (.obj dfs) = .ok errOpt)
    (hwarn : validate_dashboard_warnings (.obj dfs) = .ok wOpt) :
    mainRun ⟨[("svc", "svc-path", [.obj dfs])], [], [⟨"svc", "F"⟩],
        [⟨"SU", "Stale", some ("F")⟩], false, orc, sh⟩ =
      ([.printOut ("reading dashboards in svc-path"),
        .printOut ("Dashboard \x27" ++ t ++
          "\x27 differs or does not exist update needed"),
        .azWriteDashboard (.obj (setField ("folderUid") (.str ("F")) dfs)),
        .deleteDashboardCall ("Stale")]
       ++ (match wOpt with
           | none => []
           | some wm => [.printOut ("The following dashboards have warnings:"),
               .printTable [("svc-path", .str t, wm)]])
       ++ (match errOpt with
           | none => []
           | some m => [.printOut
                 ("The following dashboards have errors and need to be fixed:"),
               .printTable [("svc-path", .str t, m)]]),
       .ok (match errOpt with | none => 0 | some _ => 1)) := by
  have hdash : pySub (.obj dfs) ("dashboard") = .ok inner := by
    simp [pySub, hlook]
  have hdt : docTitle (.obj dfs) = .ok (.str t) := by
    simp [docTitle, hdash, htitle, bind, Except.bind]
  have hwrap : wrapDoc (.obj dfs) = .ok (.obj dfs) := by
    simp [wrapDoc, pyInKey, anyKey_of_lookup _ _ _ hlook, bind, Except.bind,
      pure, Except.pure]
  have hlook2 : lookupField ("dashboard")
      (setField ("folderUid") (.str ("F")) dfs) = some inner := by
    rw [lookupField_setField_ne _ _ _ _ (by decide)]
    exact hlook
  have hsub2 : pySub (.obj (setField ("folderUid") (.str ("F")) dfs))
      ("dashboard") = .ok inner := by
    simp [pySub, hlook2]
  have hdt2 : docTitle (.obj (setField ("folderUid") (.str ("F")) dfs)) =
      .ok (.str t) := by
    simp [docTitle, hsub2, htitle, bind, Except.bind]
  have hne : pyEq (JVal.str ("SU")) (JVal.str u) = false := by
    simp only [pyEq, beq_eq_false_iff_ne, ne_eq]
    exact fun hcon => hu hcon.symm
  have hcd : create_dashboard (.obj dfs) (.str ("F"))
      [⟨"SU", "Stale", some ("F")⟩] sh false =
      ([.printOut ("Dashboard \x27" ++ t ++
          "\x27 differs or does not exist update needed"),
        .azWriteDashboard (.obj (setField ("folderUid") (.str ("F")) dfs))],
       .ok (.obj (setField ("folderUid") (.str ("F")) dfs))) := by
    simp [create_dashboard, pySetKey, hsub2, huid, hne, writeStep, hdt2,
      runner_create_dashboard, pyStr, bind, Except.bind, pure, Except.pure]
  have hds : delete_stale_dashboard ⟨"SU", "Stale", some ("F")⟩ ["F_" ++ t]
      [⟨"svc", "F"⟩] false [] = [.deleteDashboardCall ("Stale")] := by
    have hc : ¬ ("F_Stale" = "F_" ++ t) := fun hcon => hkey hcon.symm
    simp [delete_stale_dashboard, protectedHit, runner_delete_dashboard, hc]
  have hpd : ∀ st : MState,
      procDoc ("svc-path") (.str ("F")) [⟨"SU", "Stale", some ("F")⟩] sh false
        (.obj dfs) st =
      ([.printOut ("Dashboard \x27" ++ t ++
          "\x27 differs or does not exist update needed"),
        .azWriteDashboard (.obj (setField ("folderUid") (.str ("F")) dfs))],
       .ok ⟨st.folderCalls, st.visited.insert ("F_" ++ t),
         st.errors ++ (match errOpt with
           | none => [] | some m => [("svc-path", .str t, m)]),
         st.warnings ++ (match wOpt with
           | none => [] | some wm => [("svc-path", .str t, wm)])⟩) := by
    intro st
    rcases errOpt with _ | m <;> rcases wOpt with _ | wm <;>
      simp [procDoc, herr, hwarn, hdt, hcd, hdt2, pyStr, bind, Except.bind,
        pure, Except.pure]
  rcases errOpt with _ | m <;> rcases wOpt with _ | wm <;>
    simp [mainRun, procFolders, procFolder, get_or_create_folder,
      get_folder_uid, fs_get_dashboards, wrapDocs, hwrap, procDocs, hpd, hds,
      List.insert, bind, Except.bind, pure, Except.pure]

theorem main_writes_despite_error_and_gates_exit_witness :
    (mainRun ⟨[("svc", "svc-path", [.obj [("dashboard", .obj
        [("title", .str ("T")), ("uid", .str ("abc"))])]])], [],
        [⟨"svc", "F"⟩], [⟨"SU", "Stale", some ("F")⟩], false,
        fun _ => .obj [], fun _ => .null⟩ =
      ([.printOut ("reading dashboards in svc-path"),
        .printOut ("Dashboard \x27T\x27 differs or does not exist update needed"),
        .azWriteDashboard (.obj [("dashboard", .obj
          [("title", .str ("T")), ("uid", .str ("abc"))]),
          ("folderUid", .str ("F"))]),
        .deleteDashboardCall ("Stale"),
        .printOut ("The following dashboards have warnings:"),
        .printTable [("svc-path", .str ("T"),
          "Dashboard does not have a regex set for the datasource variable")],
        .printOut ("The following dashboards have errors and need to be fixed:"),
        .printTable [("svc-path", .str ("T"),
          "Dashboard is missing \x27templating\x27 key")]],
       .ok 1))
    ∧ (mainRun ⟨[("svc", "svc-path", [.obj [("dashboard", .obj
        [("title", .str ("T")), ("uid", .str ("abc")),
         ("templating", .obj [("list", .arr [.obj
           [("query", .str ("prometheus")), ("name", .str ("datasource"))]])])])]])],
        [], [⟨"svc", "F"⟩], [⟨"SU", "Stale", some ("F")⟩], false,
        fun _ => .obj [], fun _ => .null⟩ =
      ([.printOut ("reading dashboards in svc-path"),
        .printOut ("Dashboard \x27T\x27 differs or does not exist update needed"),
        .azWriteDashboard (.obj [("dashboard", .obj
          [("title", .str ("T")), ("uid", .str ("abc")),
           ("templating", .obj [("list", .arr [.obj
             [("query", .str ("prometheus")), ("name", .str ("datasource"))]])])]),
          ("folderUid", .str ("F"))]),
        .deleteDashboardCall ("Stale"),
        .printOut ("The following dashboards have warnings:"),
        .printTable [("svc-path", .str ("T"),
          "Dashboard does not have a regex set for the datasource variable")]],
       .ok 0)) := by
  constructor
  · exact main_writes_despite_error_and_gates_exit
      [("dashboard", .obj [("title", .str ("T")), ("uid", .str ("abc"))])]
      (.obj [("title", .str ("T")), ("uid", .str ("abc"))]) ("T") ("abc")
      (some ("Dashboard is missing \x27templating\x27 key"))
      (some ("Dashboard does not have a regex set for the datasource variable"))
      (fun _ => .obj []) (fun _ => .null) (by rfl) (by rfl) (by rfl)
      (by decide) (by decide) (by rfl) (by rfl)
  · exact main_writes_despite_error_and_gates_exit
      [("dashboard", .obj [("title", .str ("T")), ("uid", .str ("abc")),
        ("templating", .obj [("list", .arr [.obj
          [("query", .str ("prometheus")), ("name", .str ("datasource"))]])])])]
      (.obj [("title", .str ("T")), ("uid", .str ("abc")),
        ("templating", .obj [("list", .arr [.obj
          [("query", .str ("prometheus")), ("name", .str ("datasource"))]])])])
      ("T") ("abc") none
      (some ("Dashboard does not have a regex set for the datasource variable"))
      (fun _ => .obj []) (fun _ => .null) (by rfl) (by rfl) (by rfl)
      (by decide) (by decide) (by rfl) (by rfl)

end Grafana
